import Mathlib

set_option maxRecDepth 10000

/-!
Shallow embedding of `edgedb/lang/common/fs/backends.py` — the
local-filesystem blob-storage backend (`BaseFSBackend` / `FSBackend`).

Pure path derivation (`escape_filename`, `_get_base_name`,
`get_file_path`, `get_file_pub_url`) is embedded as pure Lean functions
over `String` / `List Nat` (bytes).  `hashlib.md5` and
`base64.b32encode` are embedded in full (RFC 1321 / RFC 4648), since the
shard directories are slices of the base-32 encoding of the MD5 digest
of the object id's 16 raw bytes.

The stateful operations (`_get_path`, `store_file`, `store_http_file`)
are embedded by explicit state passing over an association-list model of
the filesystem; environmental outcomes (the result of `os.link`, the
result of `file.save_to`) are passed in as parameters.  Python
exceptions become `Except` values; every stateful operation also returns
the filesystem as left behind at the point the exception was raised,
mirroring Python where side effects performed before a raise persist.

Machine integers: Python ints are unbounded, so permission-mode
arithmetic uses `Int` exactly as written in the source (`0o777 - umask`,
`0o666 - umask` — note: subtraction, not `& ~umask`).  MD5 works on
`Nat` with explicit reduction `% 2^32`.

Two domain notes.  Python 3's regex `\w` matches Unicode word
characters; `isSafeChar` implements its ASCII fragment, so
`escape_filename` is exact on ASCII strings and the universal
sanitization theorems carry an `isAsciiString` hypothesis.
`os.path.isfile` follows symbolic links; `FS.stat` models this with
fuel-bounded resolution (a symlink cycle, like `ELOOP`, counts as not a
file).
-/

namespace Edgedb

/-! ## 32-bit helpers and MD5 (RFC 1321), as used by `hashlib.md5` -/

/-- Reduce a natural number to 32 bits. -/
def w32 (x : Nat) : Nat := x % 4294967296

/-- Rotate the 32-bit value `x` left by `s` bits. -/
def rotl32 (x s : Nat) : Nat := (w32 (x <<< s)) ||| (x >>> (32 - s))

/-- Fuel-driven worker for `chunksOf`. -/
def chunksOfAux (n : Nat) : Nat → List α → List (List α)
  | 0, _ => []
  | _, [] => []
  | fuel + 1, x :: xs => (x :: xs).take n :: chunksOfAux n fuel ((x :: xs).drop n)

/-- Split a list into consecutive chunks of length `n` (last chunk may be
shorter).  Structural recursion on a fuel equal to the list length, so that
the kernel can evaluate it; for `n > 0` the fuel is never exhausted. -/
def chunksOf (n : Nat) (l : List α) : List (List α) := chunksOfAux n l.length l

/-- Little-endian byte decomposition: `k` bytes of `n`, least significant
first. -/
def natToLE : Nat → Nat → List Nat
  | 0, _ => []
  | k + 1, n => n % 256 :: natToLE k (n / 256)

/-- Read a little-endian 32-bit word from (up to four) bytes. -/
def leWord (bs : List Nat) : Nat := bs.foldr (fun b acc => b + 256 * acc) 0

/-- The 64 MD5 sine-derived round constants `K[i] = ⌊2³² · |sin(i+1)|⌋`. -/
def md5K : List Nat :=
  [0xd76aa478, 0xe8c7b756, 0x242070db, 0xc1bdceee,
   0xf57c0faf, 0x4787c62a, 0xa8304613, 0xfd469501,
   0x698098d8, 0x8b44f7af, 0xffff5bb1, 0x895cd7be,
   0x6b901122, 0xfd987193, 0xa679438e, 0x49b40821,
   0xf61e2562, 0xc040b340, 0x265e5a51, 0xe9b6c7aa,
   0xd62f105d, 0x02441453, 0xd8a1e681, 0xe7d3fbc8,
   0x21e1cde6, 0xc33707d6, 0xf4d50d87, 0x455a14ed,
   0xa9e3e905, 0xfcefa3f8, 0x676f02d9, 0x8d2a4c8a,
   0xfffa3942, 0x8771f681, 0x6d9d6122, 0xfde5380c,
   0xa4beea44, 0x4bdecfa9, 0xf6bb4b60, 0xbebfbc70,
   0x289b7ec6, 0xeaa127fa, 0xd4ef3085, 0x04881d05,
   0xd9d4d039, 0xe6db99e5, 0x1fa27cf8, 0xc4ac5665,
   0xf4292244, 0x432aff97, 0xab9423a7, 0xfc93a039,
   0x655b59c3, 0x8f0ccc92, 0xffeff47d, 0x85845dd1,
   0x6fa87e4f, 0xfe2ce6e0, 0xa3014314, 0x4e0811a1,
   0xf7537e82, 0xbd3af235, 0x2ad7d2bb, 0xeb86d391]

/-- The 64 MD5 per-round left-rotation amounts. -/
def md5S : List Nat :=
  [7, 12, 17, 22, 7, 12, 17, 22, 7, 12, 17, 22, 7, 12, 17, 22,
   5, 9, 14, 20, 5, 9, 14, 20, 5, 9, 14, 20, 5, 9, 14, 20,
   4, 11, 16, 23, 4, 11, 16, 23, 4, 11, 16, 23, 4, 11, 16, 23,
   6, 10, 15, 21, 6, 10, 15, 21, 6, 10, 15, 21, 6, 10, 15, 21]

/-- The MD5 nonlinear mixing function for round `i` (F, G, H, I); bitwise
NOT of a 32-bit value `b` is `0xFFFFFFFF - b`. -/
def md5F (i b c d : Nat) : Nat :=
  if i < 16 then (b &&& c) ||| ((4294967295 - b) &&& d)
  else if i < 32 then (d &&& b) ||| ((4294967295 - d) &&& c)
  else if i < 48 then b ^^^ c ^^^ d
  else c ^^^ (b ||| (4294967295 - d))

/-- The MD5 message-word index used in step `i`. -/
def md5G (i : Nat) : Nat :=
  if i < 16 then i
  else if i < 32 then (5 * i + 1) % 16
  else if i < 48 then (3 * i + 5) % 16
  else (7 * i) % 16

/-- One of the 64 MD5 steps, acting on the state `(a, b, c, d)` with the
16-word message block `M`. -/
def md5step (M : List Nat) (st : Nat × Nat × Nat × Nat) (i : Nat) :
    Nat × Nat × Nat × Nat :=
  let (a, b, c, d) := st
  let f := w32 (md5F i b c d + a + md5K.getD i 0 + M.getD (md5G i) 0)
  (d, w32 (b + rotl32 f (md5S.getD i 0)), b, c)

/-- The MD5 compression function: run the 64 steps on one 16-word block and
add the result to the incoming state, all mod 2³². -/
def md5compress (st : Nat × Nat × Nat × Nat) (M : List Nat) :
    Nat × Nat × Nat × Nat :=
  let r := (List.range 64).foldl (md5step M) st
  (w32 (st.1 + r.1), w32 (st.2.1 + r.2.1),
   w32 (st.2.2.1 + r.2.2.1), w32 (st.2.2.2 + r.2.2.2))

/-- MD5 padding: append `0x80`, zero bytes up to 56 mod 64, then the bit
length as a 64-bit little-endian quantity. -/
def md5pad (msg : List Nat) : List Nat :=
  msg ++ 128 :: List.replicate ((119 - msg.length % 64) % 64) 0
      ++ natToLE 8 ((8 * msg.length) % 18446744073709551616)

/-- MD5 of a byte sequence, as its 16 digest bytes — the embedding of
`hashlib.md5(·).digest()`. -/
def md5 (msg : List Nat) : List Nat :=
  let st := (chunksOf 64 (md5pad msg)).foldl
    (fun st blk => md5compress st ((chunksOf 4 blk).map leWord))
    (0x67452301, 0xefcdab89, 0x98badcfe, 0x10325476)
  natToLE 4 st.1 ++ natToLE 4 st.2.1 ++ natToLE 4 st.2.2.1 ++ natToLE 4 st.2.2.2

/-! ## Base-32 encoding (RFC 4648), as used by `base64.b32encode` -/

/-- The RFC 4648 base-32 alphabet. -/
def b32alphabet : List Char := "ABCDEFGHIJKLMNOPQRSTUVWXYZ234567".toList

/-- Encode one (zero-padded) 5-byte group as 8 base-32 characters. -/
def b32quantum (g : List Nat) : List Char :=
  let n := g.getD 0 0 <<< 32 + g.getD 1 0 <<< 24 + g.getD 2 0 <<< 16
      + g.getD 3 0 <<< 8 + g.getD 4 0
  (List.range 8).map (fun i => b32alphabet.getD ((n >>> (35 - 5 * i)) % 32) 'A')

/-- The embedding of `base64.b32encode(data).decode('ascii')`: encode 5-byte
groups (zero-padding the last) and replace the trailing characters that
cover no input bits with `=`. -/
def b32encode (data : List Nat) : String :=
  let r := data.length % 5
  let body := ((chunksOf 5 (data ++ List.replicate ((5 - r) % 5) 0)).map
    b32quantum).flatten
  let npad := if r = 1 then 6 else if r = 2 then 4 else if r = 3 then 3
    else if r = 4 then 1 else 0
  String.mk (body.take (body.length - npad) ++ List.replicate npad '=')

/-! ## Hex encoding of a UUID (`uuid.UUID.hex`) -/

/-- Lower-case hex digit for `n < 16`. -/
def hexDigit (n : Nat) : Char := "0123456789abcdef".toList.getD n '0'

/-- Lower-case hex string of a byte sequence — the embedding of `id.hex`
for a `uuid.UUID` with those 16 raw bytes. -/
def uuidHex (bytes : List Nat) : String :=
  String.mk ((bytes.map (fun b => [hexDigit (b / 16), hexDigit (b % 16)])).flatten)

/-! ## Python string and path primitives -/

/-- Python slice `s[:n]` for `n ≥ 0`. -/
def pyTake (s : String) (n : Nat) : String := String.mk (s.toList.take n)

/-- Python slice `s[a:b]` for `0 ≤ a ≤ b`. -/
def pySlice (s : String) (a b : Nat) : String :=
  String.mk ((s.toList.drop a).take (b - a))

/-- Python `s.rpartition(sep)[2]`: the substring after the last occurrence
of `sep` (the whole string when `sep` does not occur). -/
def rpartitionAfter (s : String) (sep : Char) : String :=
  String.mk ((s.toList.reverse.takeWhile (· ≠ sep)).reverse)

/-- Python `posixpath.join(a, b)` for two components: `b` if it is
absolute, otherwise `a` and `b` separated by exactly one `/`. -/
def pathJoin (a b : String) : String :=
  if b.toList.head? = some '/' then b
  else if a = "" ∨ a.toList.getLast? = some '/' then a ++ b
  else a ++ "/" ++ b

/-- Python `posixpath.dirname(p)`: everything before the last `/` (empty
when there is no `/`). -/
def dirname (p : String) : String :=
  if p.toList.contains '/' then
    String.mk ((p.toList.reverse.dropWhile (· ≠ '/')).drop 1).reverse
  else ""

/-- Python `posixpath.basename(p)`: everything after the last `/`. -/
def basename (p : String) : String :=
  String.mk (p.toList.reverse.takeWhile (· ≠ '/')).reverse

/-! ## `FSBackend` pure path derivation -/

/-- Membership in the character class of `FSBackend._re_escape`, i.e. the
regex `[^\w\-\._]`: a character is safe iff it is a word character, `-`,
or `.`.  On a Python 3 `str` (no `re.ASCII` flag) `\w` matches all
Unicode word characters; this embedding implements its ASCII fragment
`[A-Za-z0-9_]`, on which the two notions coincide, and is therefore
exact for ASCII characters only — the universal theorems about
`escape_filename` are accordingly restricted to ASCII strings
(`isAsciiString`). -/
def isSafeChar (c : Char) : Bool :=
  c.isAlphanum || c = '_' || c = '-' || c = '.'

/-- Every character of the string is ASCII — the domain on which
`isSafeChar` (hence `escape_filename`) agrees exactly with the Python
regex. -/
def isAsciiString (s : String) : Bool :=
  s.toList.all (fun c => c.toNat < 128)

/-- The embedding of `FSBackend.escape_filename`:
`self._re_escape.sub('_', filename).strip('-')` — each character outside
the class is replaced (one for one) by `_`, then all leading and
trailing `-` characters are stripped.  Exact for ASCII strings; on
non-ASCII input the real regex's Unicode `\w` keeps word characters
that this ASCII-fragment model would escape. -/
def escape_filename (filename : String) : String :=
  let subbed := filename.toList.map (fun c => if isSafeChar c then c else '_')
  String.mk (((subbed.dropWhile (· = '-')).reverse.dropWhile (· = '-')).reverse)

/-- The filename length limit `FSBackend._FN_LEN_LIMIT`. -/
def FN_LEN_LIMIT : Nat := 75

/-- The length-bounding step of `FSBackend._get_base_name` (lines 92–101),
applied to the already-concatenated `id.hex + '_' + filename`: keep at most
`_FN_LEN_LIMIT` characters, preserving the extension after the last `.`
when `limit - len(extension) - 1 > 0`. -/
def boundFilename (filename : String) : String :=
  if FN_LEN_LIMIT < filename.length then
    if filename.toList.contains '.' then
      let extension := rpartitionAfter filename '.'
      let limit : Int := (FN_LEN_LIMIT : Int) - extension.length - 1
      if limit ≤ 0 then pyTake filename FN_LEN_LIMIT
      else pyTake filename limit.toNat ++ "." ++ extension
    else pyTake filename FN_LEN_LIMIT
  else filename

/-- A Python value passed as the `id` argument: either a `uuid.UUID`
(represented by its 16 raw bytes, so `id.bytes` is the list itself and
`id.hex` is `uuidHex`) or some other object, on which the
`assert isinstance(id, uuid.UUID)` in `_get_base_name` fires. -/
inductive PyId where
  | uuid (bytes : List Nat)
  | notUuid
deriving DecidableEq

/-- Error kinds of the backend, tagging the distinct `BackendError`
messages raised in `backends.py`. -/
inductive BErrKind where
  /-- `'unable to create directory …'` (root missing). -/
  | rootUnavailable
  /-- `'file names collision: … already exists'`. -/
  | nameCollision
  /-- `'unsupported file object: …'`. -/
  | unsupportedSource
  /-- `'unable to locate file …'`. -/
  | sourceNotFound
deriving DecidableEq

/-- A raised Python exception: a failed `assert`, a `BackendError`, or an
`OSError` carrying its errno. -/
inductive PyErr where
  | assertionError
  | backendError (kind : BErrKind)
  | osError (errno : Nat)
deriving DecidableEq

/-- The embedding of `FSBackend._get_base_name(bucket, id, filename)`:
assert the id is a UUID, then join `str(bucket.id)`, the first two and
next two characters of the base-32-encoded MD5 of `id.bytes`, and the
length-bounded `id.hex + '_' + filename`. -/
def get_base_name (bucketId : String) (id : PyId) (filename : String) :
    Except PyErr String :=
  match id with
  | .notUuid => .error .assertionError
  | .uuid bytes =>
    let new_id := b32encode (md5 bytes)
    let filename := boundFilename (uuidHex bytes ++ "_" ++ filename)
    .ok (pathJoin (pathJoin (pathJoin bucketId (pySlice new_id 0 2))
      (pySlice new_id 2 4)) filename)

/-- The configuration of an `FSBackend` instance: storage root `path`,
public root `pub_path`, and the resolved `umask` (a Python int). -/
structure FSBackend where
  path : String
  pub_path : String
  umask : Int

/-- The directory creation mode used by `BaseFSBackend.__init__` and
`FSBackend._get_path`: literally `0o777 - umask` in the source
(arithmetic subtraction, not `& ~umask`). -/
def dirMode (umask : Int) : Int := 0o777 - umask

/-- The file mode applied by `FSBackend._after_save`: literally
`0o666 - umask` in the source (arithmetic subtraction, not `& ~umask`). -/
def fileMode (umask : Int) : Int := 0o666 - umask

/-- The embedding of `FSBackend.get_file_path`: escape the filename and
join the storage root with the base name. -/
def FSBackend.get_file_path (be : FSBackend) (bucketId : String) (id : PyId)
    (filename : String) : Except PyErr String :=
  (get_base_name bucketId id (escape_filename filename)).map
    (fun base => pathJoin be.path base)

/-- The embedding of `FSBackend.get_file_pub_url`: escape the filename and
join the public root with the base name. -/
def FSBackend.get_file_pub_url (be : FSBackend) (bucketId : String) (id : PyId)
    (filename : String) : Except PyErr String :=
  (get_base_name bucketId id (escape_filename filename)).map
    (fun base => pathJoin be.pub_path base)

/-! ## Filesystem state model

The filesystem is an association list from absolute paths to entries.
`os.makedirs` is modelled as creating a single directory entry for the
given path when absent (`exist_ok=True`); ancestor bookkeeping is not
needed by any operation here.  `os.unlink` and `os.remove` both delete
the entry, which is exactly what the `islink`-dispatch in `_get_path`
amounts to. -/

/-- A filesystem entry: a regular file with its content bytes and
permission mode, a symbolic link, or a directory. -/
inductive Entry where
  | file (content : List Nat) (mode : Int)
  | symlink (target : String) (mode : Int)
  | dir (mode : Int)
deriving DecidableEq

/-- The entry with its permission mode replaced (`os.chmod`). -/
def Entry.withMode : Entry → Int → Entry
  | .file c _, m => .file c m
  | .symlink t _, m => .symlink t m
  | .dir _, m => .dir m

/-- A filesystem: a finite map from paths to entries, as an association
list (earlier bindings shadow later ones). -/
abbrev FS := List (String × Entry)

/-- Look up the entry at `p` (`None` ↦ the path does not exist). -/
def FS.lookup (fs : FS) (p : String) : Option Entry := List.lookup p fs

/-- Delete every binding of `p` (`os.remove` / `os.unlink`). -/
def FS.erase (fs : FS) (p : String) : FS := fs.filter (fun e => !(e.1 == p))

/-- Bind `p` to `e`, replacing any previous binding. -/
def FS.set (fs : FS) (p : String) (e : Entry) : FS := (p, e) :: FS.erase fs p

/-- Overwrite the mode of the entry at `p` (`os.chmod`); no-op when the
path does not exist. -/
def FS.chmod (fs : FS) (p : String) (m : Int) : FS :=
  fs.map (fun pe => if pe.1 == p then (pe.1, pe.2.withMode m) else pe)

/-- `os.makedirs(p, exist_ok=True, mode=m)`, modelled as creating the
directory entry for `p` when absent. -/
def FS.makedirs (fs : FS) (p : String) (m : Int) : FS :=
  match FS.lookup fs p with
  | some _ => fs
  | none => FS.set fs p (.dir m)

/-- Symlink resolution with explicit fuel: follow symlink entries until a
non-symlink entry (or nothing) is reached; exhausted fuel — a symlink
cycle — yields `none`, exactly as `os.stat` raising `ELOOP` makes
`os.path.isfile` answer false. -/
def FS.resolve (fs : FS) : Nat → String → Option Entry
  | 0, _ => none
  | fuel + 1, p =>
    match FS.lookup fs p with
    | some (.symlink t _) => FS.resolve fs fuel t
    | e => e

/-- `os.stat(p)` on the model: the entry at `p` after following symlinks
(fuel `fs.length + 1` exceeds the length of any acyclic symlink chain). -/
def FS.stat (fs : FS) (p : String) : Option Entry :=
  FS.resolve fs (fs.length + 1) p

/-- `os.path.isfile(p)`: the path resolves (following symlinks) to a
regular file. -/
def FS.isfile (fs : FS) (p : String) : Bool :=
  match FS.stat fs p with
  | some (.file _ _) => true
  | _ => false

/-! ## Stateful backend operations -/

/-- The embedding of `FSBackend._get_path(bucket, id, filename,
allow_rewrite)`: derive the destination path, reject or delete an
existing destination according to `allow_rewrite`, then create the shard
parent directory.  The returned filesystem is the state at return or at
the point the exception was raised. -/
def FSBackend.get_path (be : FSBackend) (fs : FS) (bucketId : String)
    (id : PyId) (filename : String) (allow_rewrite : Bool) :
    Except PyErr String × FS :=
  match get_base_name bucketId id (escape_filename filename) with
  | .error e => (.error e, fs)
  | .ok base =>
    let path := pathJoin be.path base
    match FS.lookup fs path with
    | some _ =>
      if allow_rewrite then
        let fs1 := FS.erase fs path
        (.ok path, FS.makedirs fs1 (dirname path) (dirMode be.umask))
      else
        (.error (.backendError .nameCollision), fs)
    | none =>
      (.ok path, FS.makedirs fs (dirname path) (dirMode be.umask))

/-- The embedding of `FSBackend._after_save(path)`:
`os.chmod(path, 0o666 - self.umask)`. -/
def FSBackend.after_save (be : FSBackend) (fs : FS) (path : String) : FS :=
  FS.chmod fs path (fileMode be.umask)

/-- The outcome of the `os.link` call in `store_file` — an environmental
input: the link either succeeds or raises `OSError` with some errno. -/
inductive LinkResult where
  | ok
  | fail (errno : Nat)
deriving DecidableEq

/-- Linux `errno.EXDEV` (cross-device link). -/
def EXDEV : Nat := 18

/-- The embedding of `FSBackend.store_file(bucket, id, filename, name=…,
allow_rewrite=…)`.  `linkRes` is the environmental outcome of `os.link`.
Returns the result, the final filesystem, and whether the
`shutil.copy` fallback ran.  The `os.path.isfile` source check resolves
symlinks (`FS.stat`); a successful link or copy materialises the resolved
source's content (and, pre-`chmod`, its mode) at the destination. -/
def FSBackend.store_file (be : FSBackend) (fs : FS) (bucketId : String)
    (id : PyId) (filename : String) (name : Option String)
    (allow_rewrite : Bool) (linkRes : LinkResult) :
    Except PyErr Unit × FS × Bool :=
  match FS.stat fs filename with
  | some (.file content srcMode) =>
    let nm := name.getD (basename filename)
    match FSBackend.get_path be fs bucketId id nm allow_rewrite with
    | (.error e, fs1) => (.error e, fs1, false)
    | (.ok path, fs1) =>
      match linkRes with
      | .ok =>
        let fs2 := FS.set fs1 path (.file content srcMode)
        (.ok (), FSBackend.after_save be fs2 path, false)
      | .fail e =>
        if e = EXDEV then
          let fs2 := FS.set fs1 path (.file content srcMode)
          (.ok (), FSBackend.after_save be fs2 path, true)
        else
          (.error (.osError e), fs1, false)
  | _ => (.error (.backendError .sourceNotFound), fs, false)

/-- The `file` argument of `store_http_file`: either an instance of
`spin.http.types.File` — with its `filename`, the content its `save_to`
writes, and an environmental outcome for `save_to` (`none` = success,
`some errno` = it raises) — or some other object. -/
inductive HttpArg where
  | file (filename : String) (content : List Nat) (saveErr : Option Nat)
  | notFile
deriving DecidableEq

/-- The embedding of `FSBackend.store_http_file(bucket, id, file,
allow_rewrite=…)`: type-check the file object, resolve the path, delegate
the byte transfer to `file.save_to(path)`, then fix permissions.  The
mode a successful `save_to` leaves is environmental; `_after_save`
overwrites it, so it is modelled as `0`. -/
def FSBackend.store_http_file (be : FSBackend) (fs : FS) (bucketId : String)
    (id : PyId) (file : HttpArg) (allow_rewrite : Bool) :
    Except PyErr Unit × FS :=
  match file with
  | .notFile => (.error (.backendError .unsupportedSource), fs)
  | .file fn content saveErr =>
    match FSBackend.get_path be fs bucketId id fn allow_rewrite with
    | (.error e, fs1) => (.error e, fs1)
    | (.ok path, fs1) =>
      match saveErr with
      | some e => (.error (.osError e), fs1)
      | none =>
        let fs2 := FS.set fs1 path (.file content 0)
        (.ok (), FSBackend.after_save be fs2 path)

/-! ## Derived abbreviations shared by the theorems -/

/-- The `.ok` payload of `_get_base_name` for a UUID id: the relative path
`join(str(bucket.id), c[0:2], c[2:4], storedName)` with `c` the base-32
encoding of the MD5 of the id's bytes and `storedName` the length-bounded
prefixed filename. -/
def base_name_uuid (bucketId : String) (bytes : List Nat) (filename : String) :
    String :=
  pathJoin (pathJoin (pathJoin bucketId (pySlice (b32encode (md5 bytes)) 0 2))
    (pySlice (b32encode (md5 bytes)) 2 4))
    (boundFilename (uuidHex bytes ++ "_" ++ filename))


/-- The absolute destination path a store operation derives for a raw
(logical, pre-escaping) filename. -/
def dest_path (be : FSBackend) (bucketId : String) (bytes : List Nat)
    (rawName : String) : String :=
  pathJoin be.path (base_name_uuid bucketId bytes (escape_filename rawName))

/-- The 16 raw bytes of the object id with hex
`12345678123456781234567812345678`, used by the concrete scenarios. -/
def sampleBytes : List Nat :=
  [0x12, 0x34, 0x56, 0x78, 0x12, 0x34, 0x56, 0x78,
   0x12, 0x34, 0x56, 0x78, 0x12, 0x34, 0x56, 0x78]

/-- The spec's worked example for C3: a combined name of length 90 ending
in `.pdf`. -/
def c3Example : String := String.mk (List.replicate 86 'a') ++ ".pdf"

/-- A concrete backend configuration for the witness scenarios. -/
def witBackend : FSBackend := ⟨"/storage", "/pub", 0o022⟩

/-- The concrete destination path the witness scenarios store to. -/
def witDest : String := dest_path witBackend "42" sampleBytes "report.pdf"

/-- A concrete filesystem holding both the source file and an entry at the
destination path (collision scenarios). -/
def witFS : FS :=
  [("/src/report.pdf", .file [7, 7] 0o644), (witDest, .file [1] 0o644)]

/-- A concrete filesystem holding only the source file (no collision). -/
def witFS2 : FS := [("/src/report.pdf", .file [7, 7] 0o644)]

/-- A concrete filesystem in which the source path is a symbolic link to
a regular file (exercising the symlink-following `os.path.isfile`). -/
def witFS3 : FS :=
  [("link.pdf", .symlink "/src/report.pdf" 0o777),
   ("/src/report.pdf", .file [7, 7] 0o644)]

theorem get_base_name_uuid (bucketId : String) (bytes : List Nat)
    (filename : String) :
    get_base_name bucketId (.uuid bytes) filename
      = .ok (base_name_uuid bucketId bytes filename) := rfl

/-! ## List helper lemmas -/

theorem mem_of_mem_dropWhile {p : α → Bool} {l : List α} {a : α}
    (h : a ∈ l.dropWhile p) : a ∈ l := by
  induction l with
  | nil => simp at h
  | cons x xs ih =>
    by_cases hp : p x = true
    · rw [List.dropWhile_cons_of_pos hp] at h
      exact List.mem_cons_of_mem _ (ih h)
    · rw [List.dropWhile_cons_of_neg hp] at h
      exact h

theorem head?_dropWhile_not {p : α → Bool} {l : List α} {a : α}
    (h : (l.dropWhile p).head? = some a) : p a = false := by
  induction l with
  | nil => simp at h
  | cons x xs ih =>
    by_cases hp : p x = true
    · rw [List.dropWhile_cons_of_pos hp] at h
      exact ih h
    · rw [List.dropWhile_cons_of_neg hp] at h
      simp only [List.head?_cons, Option.some.injEq] at h
      simpa [← h] using hp

/-! ## C1 -/

/-- C1: for every bucket id, object id (as its 16 raw bytes) and filename,
`get_file_path` and `get_file_pub_url` return their respective configured
root (`path` / `pub_path`) joined with one and the same relative path
`join(str(bucket.id), c[0:2], c[2:4], storedName)`, where `c` is the
base-32 encoding of the MD5 digest of the id's raw bytes and `storedName`
the length-bounded prefixed sanitized filename; both functions are pure,
so repeated calls agree, and the two results differ only in the root
prefix. -/
theorem c1_file_path_and_pub_url_share_relative_path (be : FSBackend)
    (bucketId : String) (bytes : List Nat) (filename : String) :
    ∃ rel : String,
      rel = pathJoin (pathJoin (pathJoin bucketId
              (pySlice (b32encode (md5 bytes)) 0 2))
              (pySlice (b32encode (md5 bytes)) 2 4))
            (boundFilename (uuidHex bytes ++ "_" ++ escape_filename filename)) ∧
      FSBackend.get_file_path be bucketId (.uuid bytes) filename
        = .ok (pathJoin be.path rel) ∧
      FSBackend.get_file_pub_url be bucketId (.uuid bytes) filename
        = .ok (pathJoin be.pub_path rel) :=
  ⟨_, rfl, rfl, rfl⟩

/-! ## C2 -/

/-- C2 (counterexample): `escape_filename` does not collapse a run of
unsafe characters to a single `_` — on `"a//b"` the code yields `"a__b"`,
not `"a_b"`. -/
theorem c2_counterexample_run_not_collapsed :
    escape_filename "a//b" = "a__b" ∧ ("a__b" : String) ≠ "a_b" :=
  ⟨by decide, by decide⟩

/-- C2 (amended): on every ASCII input string — the domain where the
regex's `\w` coincides with `[A-Za-z0-9_]` — `escape_filename` replaces
each character outside `[A-Za-z0-9_.-]` with `_` one for one (a run of
`k` unsafe characters becomes `k` underscores), then strips leading and
trailing `-` characters; consequently only characters in `[A-Za-z0-9_.-]`
survive in the result and the result neither starts nor ends with `-`;
`escape("a/b c.txt") = "a_b_c.txt"`, `escape("--x--") = "x"`,
`escape("a//b") = "a__b"`.  (On non-ASCII input Python's Unicode `\w`
keeps word characters outside the ASCII class, e.g. `é`, so the
survival bound holds only for ASCII strings.) -/
theorem c2_escape_filename_characterization :
    (∀ s : String, isAsciiString s = true →
      ∀ c ∈ (escape_filename s).toList, isSafeChar c = true) ∧
    (∀ s : String, isAsciiString s = true → ∀ c : Char,
      (escape_filename s).toList.head? = some c → c ≠ '-') ∧
    (∀ s : String, isAsciiString s = true → ∀ c : Char,
      (escape_filename s).toList.getLast? = some c → c ≠ '-') ∧
    escape_filename "a/b c.txt" = "a_b_c.txt" ∧
    escape_filename "--x--" = "x" ∧
    escape_filename "a//b" = "a__b" := by
  refine ⟨?_, ?_, ?_, by decide, by decide, by decide⟩
  · intro s _hascii c hc
    have hc' : c ∈ (((s.toList.map (fun c => if isSafeChar c then c else '_')
        ).dropWhile (· = '-')).reverse.dropWhile (· = '-')).reverse := hc
    have h1 : c ∈ s.toList.map (fun c => if isSafeChar c then c else '_') :=
      mem_of_mem_dropWhile
        (List.mem_reverse.mp (mem_of_mem_dropWhile (List.mem_reverse.mp hc')))
    obtain ⟨a, -, ha⟩ := List.mem_map.mp h1
    by_cases hs : isSafeChar a = true
    · rw [← ha]
      simp only [hs, if_true]
    · have heq : isSafeChar a = false := by simpa using hs
      have h2 : isSafeChar '_' = true := by decide
      rw [← ha]
      simp [heq, h2]
  · intro s _hascii c h
    have h' : (List.rdropWhile (· = '-')
        ((s.toList.map (fun c => if isSafeChar c then c else '_')
          ).dropWhile (· = '-'))).head? = some c := h
    have hmem : c ∈ ((s.toList.map (fun c => if isSafeChar c then c else '_')
        ).dropWhile (· = '-')).head? := by
      obtain ⟨t, ht⟩ := List.rdropWhile_prefix (l := (s.toList.map
        (fun c => if isSafeChar c then c else '_')).dropWhile (· = '-'))
        (p := (· = '-'))
      rw [← ht]
      exact List.mem_head?_append_of_mem_head? h'
    have hq := head?_dropWhile_not (Option.mem_def.mp hmem)
    simpa using of_decide_eq_false hq
  · intro s _hascii c h
    have h' : (List.rdropWhile (· = '-')
        ((s.toList.map (fun c => if isSafeChar c then c else '_')
          ).dropWhile (· = '-'))).getLast? = some c := h
    have hne : List.rdropWhile (· = '-')
        ((s.toList.map (fun c => if isSafeChar c then c else '_')
          ).dropWhile (· = '-')) ≠ [] := by
      intro contra
      rw [contra] at h'
      simp at h'
    have hlast := List.rdropWhile_last_not
      (l := (s.toList.map (fun c => if isSafeChar c then c else '_')
        ).dropWhile (· = '-')) (p := (· = '-')) hne
    rw [List.getLast?_eq_getLast_of_ne_nil hne, Option.some.injEq] at h'
    rw [← h']
    simpa using hlast

/-- C2 witness: the characterization applied at the concrete ASCII input
`"a//b"` (safe character, and neither end is a dash). -/
theorem c2_escape_filename_characterization_witness :
    isSafeChar 'a' = true ∧ ('a' : Char) ≠ '-' ∧ ('b' : Char) ≠ '-' :=
  ⟨c2_escape_filename_characterization.1 "a//b" (by decide) 'a' (by decide),
   c2_escape_filename_characterization.2.1 "a//b" (by decide) 'a' (by decide),
   c2_escape_filename_characterization.2.2.1 "a//b" (by decide) 'b' (by decide)⟩

/-! ## String helper lemmas -/

theorem string_toList_append (a b : String) :
    (a ++ b).toList = a.toList ++ b.toList := by
  cases a
  cases b
  rfl

theorem string_length_toList (s : String) : s.length = s.toList.length := rfl

/-! ## C3 -/

/-- C3: the length-bounding step of `_get_base_name` keeps a combined
(prefix + sanitized filename) string of at most 75 characters unchanged;
when it exceeds 75 and contains a `.`, with `ext` the substring after the
last `.`: if `75 - len(ext) - 1 > 0` (i.e. `len(ext) < 74`) the result is
exactly 75 characters and ends with `.` + `ext`, otherwise the string is
hard-truncated to its first 75 characters; with no `.` present it is
likewise hard-truncated to 75 characters. -/
theorem c3_bound_filename_trichotomy (s : String) :
    (s.length ≤ FN_LEN_LIMIT → boundFilename s = s) ∧
    (FN_LEN_LIMIT < s.length → s.toList.contains '.' = true →
      ((rpartitionAfter s '.').length < 74 →
        (boundFilename s).length = 75 ∧
        ('.' :: (rpartitionAfter s '.').toList) <:+ (boundFilename s).toList) ∧
      (74 ≤ (rpartitionAfter s '.').length →
        boundFilename s = pyTake s FN_LEN_LIMIT)) ∧
    (FN_LEN_LIMIT < s.length → s.toList.contains '.' = false →
      boundFilename s = pyTake s FN_LEN_LIMIT) := by
  refine ⟨?_, ?_, ?_⟩
  · intro h
    have h' : ¬ (FN_LEN_LIMIT < s.length) := Nat.not_lt.mpr h
    simp [boundFilename, h']
  · intro h hdot
    constructor
    · intro hext
      have hdotm : '.' ∈ s.data := by simpa using hdot
      have hlim : ¬ ((FN_LEN_LIMIT : Int) - (rpartitionAfter s '.').length - 1 ≤ 0) := by
        simp only [FN_LEN_LIMIT]
        omega
      have hb : boundFilename s
          = pyTake s (FN_LEN_LIMIT - (rpartitionAfter s '.').length - 1)
            ++ "." ++ rpartitionAfter s '.' := by
        simp [boundFilename, h, hdotm, hlim]
      rw [hb]
      constructor
      · rw [string_length_toList, string_toList_append, string_toList_append]
        simp only [List.length_append]
        have h1 : (pyTake s
            (FN_LEN_LIMIT - (rpartitionAfter s '.').length - 1)).toList.length
            = min (FN_LEN_LIMIT - (rpartitionAfter s '.').length - 1)
                s.toList.length := by
          simp [pyTake]
        have h2 : (("." : String)).toList.length = 1 := rfl
        have h3 : (rpartitionAfter s '.').toList.length
            = (rpartitionAfter s '.').length := rfl
        have h4 : s.toList.length = s.length := rfl
        rw [h1, h2, h3, h4]
        simp only [FN_LEN_LIMIT] at *
        omega
      · rw [string_toList_append]
        have h5 : (("." : String) ++ rpartitionAfter s '.').toList
            = '.' :: (rpartitionAfter s '.').toList := by
          rw [string_toList_append]
          rfl
        rw [string_toList_append] at h5 ⊢
        rw [List.append_assoc]
        rw [show ("." : String).toList ++ (rpartitionAfter s '.').toList
          = '.' :: (rpartitionAfter s '.').toList from rfl]
        exact List.suffix_append _ _
    · intro hext
      have hdotm : '.' ∈ s.data := by simpa using hdot
      have hlim : (FN_LEN_LIMIT : Int) - (rpartitionAfter s '.').length - 1 ≤ 0 := by
        simp only [FN_LEN_LIMIT]
        omega
      simp [boundFilename, h, hdotm, hlim]
  · intro h hdot
    have hdotm : '.' ∉ s.data := by simpa using hdot
    simp [boundFilename, h, hdotm]

/-- C3 witness: the 90-character combined name ending in `.pdf` is bounded
to exactly 75 characters ending in `.pdf`. -/
theorem c3_bound_filename_trichotomy_witness :
    (boundFilename c3Example).length = 75 ∧
    ('.' :: (rpartitionAfter c3Example '.').toList) <:+ (boundFilename c3Example).toList :=
  ((c3_bound_filename_trichotomy c3Example).2.1 (by decide) (by decide)).1 (by decide)

/-! ## C7 -/

/-- C7 (counterexample): the stored name
`"12345678123456781234567812345678_report.pdf"` derived for the scenario
has 43 characters, not 44 as the claim asserts. -/
theorem c7_counterexample_stored_name_length :
    (boundFilename (uuidHex sampleBytes ++ "_" ++ escape_filename "report.pdf")).length = 43
      ∧ (43 : Nat) ≠ 44 :=
  ⟨by decide, by decide⟩

/-- C7 (amended): for bucket id `"42"`, the object id with hex
`12345678123456781234567812345678` and filename `"report.pdf"`, the
sanitized filename is unchanged, the stored name is the 43-character
string `"12345678123456781234567812345678_report.pdf"` (under the limit,
unchanged), and the relative path is
`"42/W6/XX/12345678123456781234567812345678_report.pdf"`, where `"W6"`
and `"XX"` are the first two 2-character slices of the base-32 encoding
of the MD5 digest of the id's 16 raw bytes. -/
theorem c7_scenario_path :
    escape_filename "report.pdf" = "report.pdf" ∧
    boundFilename (uuidHex sampleBytes ++ "_" ++ escape_filename "report.pdf")
      = "12345678123456781234567812345678_report.pdf" ∧
    ("12345678123456781234567812345678_report.pdf" : String).length = 43 ∧
    43 ≤ FN_LEN_LIMIT ∧
    pySlice (b32encode (md5 sampleBytes)) 0 2 = "W6" ∧
    pySlice (b32encode (md5 sampleBytes)) 2 4 = "XX" ∧
    get_base_name "42" (.uuid sampleBytes) (escape_filename "report.pdf")
      = .ok "42/W6/XX/12345678123456781234567812345678_report.pdf" :=
  ⟨by decide, by decide, by decide, by decide, by decide, by decide, by rfl⟩

/-! ## C4 -/

/-- C4 (code bug): the source computes permission modes by arithmetic
subtraction (`0o777 - umask`, `0o666 - umask`), not by `& ~umask` as the
spec states.  For directories the two agree for any `umask ≤ 0o777`, but
for files they diverge on any umask with a bit outside `0o666`: at the
common `umask = 0o077` the stored file receives mode `0o567` (granting
group/other write and execute) instead of `0o666 & ~0o077 = 0o600`, as
the end-to-end store below exhibits. -/
theorem c4_file_mode_subtraction_bug :
    fileMode 0o077 = 0o567 ∧
    ((0o666 : Nat) &&& ((0o777 : Nat) ^^^ 0o077)) = 0o600 ∧
    ((0o567 : Int) ≠ 0o600) ∧
    dirMode 0o077 = 0o700 ∧
    ((0o777 : Nat) &&& ((0o777 : Nat) ^^^ 0o077)) = 0o700 ∧
    FS.lookup (FSBackend.store_http_file ⟨"/storage", "/pub", 0o077⟩ [] "42"
        (.uuid sampleBytes) (.file "report.pdf" [1, 2, 3] none) false).2
      (dest_path ⟨"/storage", "/pub", 0o077⟩ "42" sampleBytes "report.pdf")
      = some (.file [1, 2, 3] 0o567) :=
  ⟨by decide, by decide, by decide, by decide, by decide, by rfl⟩

/-! ## Filesystem lookup lemmas -/

theorem FS.lookup_set_self (fs : FS) (p : String) (e : Entry) :
    FS.lookup (FS.set fs p e) p = some e := by
  simp [FS.set, FS.lookup, List.lookup]

theorem FS.lookup_erase_self (fs : FS) (p : String) :
    FS.lookup (FS.erase fs p) p = none := by
  induction fs with
  | nil => rfl
  | cons hd t ih =>
    by_cases h : hd.1 = p
    · simpa [FS.erase, FS.lookup, List.filter, h] using ih
    · have hb : (hd.1 == p) = false := beq_eq_false_iff_ne.mpr h
      have hb' : (p == hd.1) = false := beq_eq_false_iff_ne.mpr (Ne.symm h)
      simpa [FS.erase, FS.lookup, List.filter, List.lookup, hb, hb'] using ih

theorem FS.lookup_erase_ne (fs : FS) (p q : String) (h : q ≠ p) :
    FS.lookup (FS.erase fs p) q = FS.lookup fs q := by
  induction fs with
  | nil => rfl
  | cons hd t ih =>
    by_cases h1 : hd.1 = p
    · have hb : (hd.1 == p) = true := beq_iff_eq.mpr h1
      have hb' : (q == hd.1) = false := beq_eq_false_iff_ne.mpr (h1 ▸ h)
      simpa [FS.erase, FS.lookup, List.filter, List.lookup, hb, hb'] using ih
    · have hb : (hd.1 == p) = false := beq_eq_false_iff_ne.mpr h1
      by_cases h2 : q = hd.1
      · simp [FS.erase, FS.lookup, List.filter, List.lookup, hb, h2]
      · have hb' : (q == hd.1) = false := beq_eq_false_iff_ne.mpr h2
        simpa [FS.erase, FS.lookup, List.filter, List.lookup, hb, hb'] using ih

theorem FS.lookup_chmod_self (fs : FS) (p : String) (m : Int) :
    FS.lookup (FS.chmod fs p m) p
      = (FS.lookup fs p).map (fun e => e.withMode m) := by
  induction fs with
  | nil => rfl
  | cons hd t ih =>
    obtain ⟨k, e⟩ := hd
    show FS.lookup ((if (k == p) = true then (k, e.withMode m) else (k, e))
        :: FS.chmod t p m) p
      = (FS.lookup ((k, e) :: t) p).map (fun e => e.withMode m)
    by_cases h : k = p
    · subst h
      rw [if_pos (beq_self_eq_true k)]
      simp [FS.lookup, List.lookup]
    · have hb : ¬ ((k == p) = true) := by simp [h]
      have hb' : (p == k) = false := beq_eq_false_iff_ne.mpr (Ne.symm h)
      rw [if_neg hb]
      simpa [FS.lookup, List.lookup, hb'] using ih

theorem FS.lookup_makedirs_ne (fs : FS) (p q : String) (m : Int) (h : q ≠ p) :
    FS.lookup (FS.makedirs fs p m) q = FS.lookup fs q := by
  unfold FS.makedirs
  cases FS.lookup fs p with
  | some e => rfl
  | none =>
    show FS.lookup (FS.set fs p (.dir m)) q = FS.lookup fs q
    have hb : (q == p) = false := beq_eq_false_iff_ne.mpr h
    simpa [FS.set, FS.lookup, List.lookup, hb] using FS.lookup_erase_ne fs p q h

theorem FS.stat_of_lookup_file (fs : FS) (p : String) (c : List Nat) (m : Int)
    (h : FS.lookup fs p = some (.file c m)) :
    FS.stat fs p = some (.file c m) := by
  show FS.resolve fs (fs.length + 1) p = some (.file c m)
  simp [FS.resolve, h]

/-! ## C5 -/

/-- C5: for either store entry point, when the derived destination path
already exists and `allow_rewrite` is false, the operation fails with the
name-collision `BackendError` and returns the filesystem exactly as it
was — in particular the destination entry (hence the existing file's
content) is unchanged. -/
theorem c5_collision_rejected_state_unchanged (be : FSBackend) (fs : FS)
    (bucketId : String) (bytes content htContent : List Nat)
    (src nm : String) (srcMode : Int) (entry : Entry) (linkRes : LinkResult)
    (saveErr : Option Nat)
    (hsrc : FS.lookup fs src = some (.file content srcMode))
    (hdest : FS.lookup fs (dest_path be bucketId bytes nm) = some entry) :
    FSBackend.store_file be fs bucketId (.uuid bytes) src (some nm) false linkRes
      = (.error (.backendError .nameCollision), fs, false) ∧
    FSBackend.store_http_file be fs bucketId (.uuid bytes)
        (.file nm htContent saveErr) false
      = (.error (.backendError .nameCollision), fs) ∧
    FS.lookup (FSBackend.store_file be fs bucketId (.uuid bytes) src (some nm)
        false linkRes).2.1 (dest_path be bucketId bytes nm) = some entry := by
  have hstat : FS.stat fs src = some (.file content srcMode) :=
    FS.stat_of_lookup_file fs src content srcMode hsrc
  simp only [dest_path, base_name_uuid] at hdest
  refine ⟨?_, ?_, ?_⟩
  · simp [FSBackend.store_file, hstat, FSBackend.get_path, get_base_name, hdest]
  · simp [FSBackend.store_http_file, FSBackend.get_path, get_base_name, hdest]
  · simp [FSBackend.store_file, hstat, FSBackend.get_path, get_base_name, hdest, dest_path, base_name_uuid]

/-! ## C9 -/

/-- C9: `_get_path` raises the name-collision error before the `makedirs`
call: when the destination exists and `allow_rewrite` is false, the
returned filesystem is exactly the input one, so no directory (in
particular not the shard parent directory of the destination) has been
created. -/
theorem c9_collision_raised_before_makedirs (be : FSBackend) (fs : FS)
    (bucketId : String) (bytes : List Nat) (nm : String) (entry : Entry)
    (hdest : FS.lookup fs (dest_path be bucketId bytes nm) = some entry) :
    FSBackend.get_path be fs bucketId (.uuid bytes) nm false
      = (.error (.backendError .nameCollision), fs) ∧
    (FS.lookup fs (dirname (dest_path be bucketId bytes nm)) = none →
      FS.lookup (FSBackend.get_path be fs bucketId (.uuid bytes) nm false).2
        (dirname (dest_path be bucketId bytes nm)) = none) := by
  simp only [dest_path, base_name_uuid] at hdest
  constructor
  · simp [FSBackend.get_path, get_base_name, hdest]
  · intro hdir
    simpa [FSBackend.get_path, get_base_name, hdest,
      dest_path, base_name_uuid] using hdir

/-- C5 witness: the collision rejection at a concrete backend, filesystem,
id and filename. -/
theorem c5_collision_rejected_state_unchanged_witness :
    FSBackend.store_file witBackend witFS "42" (.uuid sampleBytes)
        "/src/report.pdf" (some "report.pdf") false .ok
      = (.error (.backendError .nameCollision), witFS, false) ∧
    FSBackend.store_http_file witBackend witFS "42" (.uuid sampleBytes)
        (.file "report.pdf" [9] none) false
      = (.error (.backendError .nameCollision), witFS) ∧
    FS.lookup (FSBackend.store_file witBackend witFS "42" (.uuid sampleBytes)
        "/src/report.pdf" (some "report.pdf") false .ok).2.1 witDest
      = some (.file [1] 0o644) := by
  have h := c5_collision_rejected_state_unchanged witBackend witFS "42"
    sampleBytes [7, 7] [9] "/src/report.pdf" "report.pdf" 0o644
    (.file [1] 0o644) .ok none (by rfl) (by rfl)
  exact ⟨h.1, h.2.1, h.2.2⟩

/-- C9 witness: the collision rejection of `_get_path` at a concrete
input leaves the filesystem untouched and creates no shard directory. -/
theorem c9_collision_raised_before_makedirs_witness :
    FSBackend.get_path witBackend witFS "42" (.uuid sampleBytes)
        "report.pdf" false
      = (.error (.backendError .nameCollision), witFS) ∧
    FS.lookup (FSBackend.get_path witBackend witFS "42" (.uuid sampleBytes)
        "report.pdf" false).2 (dirname witDest) = none := by
  have h := c9_collision_raised_before_makedirs witBackend witFS "42"
    sampleBytes "report.pdf" (.file [1] 0o644) (by rfl)
  exact ⟨h.1, h.2 (by rfl)⟩

/-! ## C6 -/

/-- C6: when the source file exists and the destination does not,
`store_file` attempts the hard link; the `shutil.copy` fallback runs if
and only if the link fails with the cross-device errno `EXDEV` (the
fallback leaves the destination holding exactly the source's bytes), and
a link failure with any other errno is propagated to the caller
unchanged (same errno, no fallback). -/
theorem c6_link_exdev_fallback (be : FSBackend) (fs : FS) (bucketId : String)
    (bytes content : List Nat) (src nm : String) (srcMode : Int)
    (hsrc : FS.lookup fs src = some (.file content srcMode))
    (hdest : FS.lookup fs (dest_path be bucketId bytes nm) = none) :
    ((FSBackend.store_file be fs bucketId (.uuid bytes) src (some nm)
        false .ok).1 = .ok () ∧
      (FSBackend.store_file be fs bucketId (.uuid bytes) src (some nm)
        false .ok).2.2 = false) ∧
    ((FSBackend.store_file be fs bucketId (.uuid bytes) src (some nm)
        false (.fail EXDEV)).1 = .ok () ∧
      (FSBackend.store_file be fs bucketId (.uuid bytes) src (some nm)
        false (.fail EXDEV)).2.2 = true ∧
      FS.lookup (FSBackend.store_file be fs bucketId (.uuid bytes) src (some nm)
          false (.fail EXDEV)).2.1 (dest_path be bucketId bytes nm)
        = some (.file content (fileMode be.umask))) ∧
    (∀ e : Nat, e ≠ EXDEV →
      (FSBackend.store_file be fs bucketId (.uuid bytes) src (some nm)
        false (.fail e)).1 = .error (.osError e) ∧
      (FSBackend.store_file be fs bucketId (.uuid bytes) src (some nm)
        false (.fail e)).2.2 = false) := by
  have hstat : FS.stat fs src = some (.file content srcMode) :=
    FS.stat_of_lookup_file fs src content srcMode hsrc
  simp only [dest_path, base_name_uuid] at hdest ⊢
  refine ⟨⟨?_, ?_⟩, ⟨?_, ?_, ?_⟩, ?_⟩
  · simp [FSBackend.store_file, hstat, FSBackend.get_path, get_base_name, hdest]
  · simp [FSBackend.store_file, hstat, FSBackend.get_path, get_base_name, hdest]
  · simp [FSBackend.store_file, hstat, FSBackend.get_path, get_base_name, hdest,
      EXDEV]
  · simp [FSBackend.store_file, hstat, FSBackend.get_path, get_base_name, hdest,
      EXDEV]
  · simp [FSBackend.store_file, hstat, FSBackend.get_path, get_base_name, hdest,
      EXDEV, FSBackend.after_save, FS.lookup_chmod_self, FS.lookup_set_self,
      Entry.withMode]
  · intro e he
    constructor
    · simp [FSBackend.store_file, hstat, FSBackend.get_path, get_base_name,
        hdest, he]
    · simp [FSBackend.store_file, hstat, FSBackend.get_path, get_base_name,
        hdest, he]

/-- C6 witness: the three link outcomes at a concrete input (errno 5 for
the non-`EXDEV` failure). -/
theorem c6_link_exdev_fallback_witness :
    (FSBackend.store_file witBackend witFS2 "42" (.uuid sampleBytes)
        "/src/report.pdf" (some "report.pdf") false (.fail EXDEV)).2.2 = true ∧
    FS.lookup (FSBackend.store_file witBackend witFS2 "42" (.uuid sampleBytes)
        "/src/report.pdf" (some "report.pdf") false (.fail EXDEV)).2.1 witDest
      = some (.file [7, 7] (fileMode witBackend.umask)) ∧
    (FSBackend.store_file witBackend witFS2 "42" (.uuid sampleBytes)
        "/src/report.pdf" (some "report.pdf") false (.fail 5)).1
      = .error (.osError 5) := by
  have h := c6_link_exdev_fallback witBackend witFS2 "42" sampleBytes [7, 7]
    "/src/report.pdf" "report.pdf" 0o644 (by rfl) (by rfl)
  exact ⟨h.2.1.2.1, h.2.1.2.2, (h.2.2 5 (by decide)).1⟩

/-! ## C10 -/

/-- C10: with `allow_rewrite` true and an existing destination, the
existing entry is deleted during `_get_path`, before any new content is
written; hence when the subsequent link (with a non-`EXDEV` errno) or
streamed save fails, the operation errors and the destination is absent —
the previous content is not restored.  (`hdir` records that the shard
parent directory is a different path from the destination itself.) -/
theorem c10_rewrite_removes_destination_before_write (be : FSBackend)
    (fs : FS) (bucketId : String) (bytes content htContent : List Nat)
    (src nm : String) (srcMode : Int) (oldEntry : Entry) (e : Nat)
    (hsrc : FS.lookup fs src = some (.file content srcMode))
    (hdest : FS.lookup fs (dest_path be bucketId bytes nm) = some oldEntry)
    (hdir : dirname (dest_path be bucketId bytes nm)
      ≠ dest_path be bucketId bytes nm)
    (he : e ≠ EXDEV) :
    ((FSBackend.store_file be fs bucketId (.uuid bytes) src (some nm)
        true (.fail e)).1 = .error (.osError e) ∧
      FS.lookup (FSBackend.store_file be fs bucketId (.uuid bytes) src (some nm)
        true (.fail e)).2.1 (dest_path be bucketId bytes nm) = none) ∧
    ((FSBackend.store_http_file be fs bucketId (.uuid bytes)
        (.file nm htContent (some e)) true).1 = .error (.osError e) ∧
      FS.lookup (FSBackend.store_http_file be fs bucketId (.uuid bytes)
        (.file nm htContent (some e)) true).2
        (dest_path be bucketId bytes nm) = none) := by
  have hget : FSBackend.get_path be fs bucketId (.uuid bytes) nm true
      = (.ok (dest_path be bucketId bytes nm),
         FS.makedirs (FS.erase fs (dest_path be bucketId bytes nm))
           (dirname (dest_path be bucketId bytes nm)) (dirMode be.umask)) := by
    simp only [dest_path, base_name_uuid] at hdest ⊢
    simp [FSBackend.get_path, get_base_name, hdest]
  have hres : FSBackend.store_file be fs bucketId (.uuid bytes) src (some nm)
      true (.fail e)
      = (.error (.osError e),
         FS.makedirs (FS.erase fs (dest_path be bucketId bytes nm))
           (dirname (dest_path be bucketId bytes nm)) (dirMode be.umask),
         false) := by
    simp [FSBackend.store_file,
      FS.stat_of_lookup_file fs src content srcMode hsrc, hget, he]
  have hres2 : FSBackend.store_http_file be fs bucketId (.uuid bytes)
      (.file nm htContent (some e)) true
      = (.error (.osError e),
         FS.makedirs (FS.erase fs (dest_path be bucketId bytes nm))
           (dirname (dest_path be bucketId bytes nm)) (dirMode be.umask)) := by
    simp [FSBackend.store_http_file, hget]
  refine ⟨⟨?_, ?_⟩, ?_, ?_⟩
  · rw [hres]
  · rw [hres]
    show FS.lookup (FS.makedirs (FS.erase fs (dest_path be bucketId bytes nm))
      (dirname (dest_path be bucketId bytes nm)) (dirMode be.umask))
      (dest_path be bucketId bytes nm) = none
    rw [FS.lookup_makedirs_ne _ _ _ _ (Ne.symm hdir)]
    exact FS.lookup_erase_self fs _
  · rw [hres2]
  · rw [hres2]
    show FS.lookup (FS.makedirs (FS.erase fs (dest_path be bucketId bytes nm))
      (dirname (dest_path be bucketId bytes nm)) (dirMode be.umask))
      (dest_path be bucketId bytes nm) = none
    rw [FS.lookup_makedirs_ne _ _ _ _ (Ne.symm hdir)]
    exact FS.lookup_erase_self fs _

/-- C10 witness: rewrite-then-failure at a concrete input (errno 5): both
entry points error and leave the destination absent. -/
theorem c10_rewrite_removes_destination_before_write_witness :
    (FSBackend.store_file witBackend witFS "42" (.uuid sampleBytes)
        "/src/report.pdf" (some "report.pdf") true (.fail 5)).1
      = .error (.osError 5) ∧
    FS.lookup (FSBackend.store_file witBackend witFS "42" (.uuid sampleBytes)
        "/src/report.pdf" (some "report.pdf") true (.fail 5)).2.1 witDest
      = none ∧
    (FSBackend.store_http_file witBackend witFS "42" (.uuid sampleBytes)
        (.file "report.pdf" [9] (some 5)) true).1 = .error (.osError 5) ∧
    FS.lookup (FSBackend.store_http_file witBackend witFS "42"
        (.uuid sampleBytes) (.file "report.pdf" [9] (some 5)) true).2 witDest
      = none := by
  have h := c10_rewrite_removes_destination_before_write witBackend witFS "42"
    sampleBytes [7, 7] [9] "/src/report.pdf" "report.pdf" 0o644
    (.file [1] 0o644) 5 (by rfl) (by rfl) (by decide) (by decide)
  exact ⟨h.1.1, h.1.2, h.2.1, h.2.2⟩

/-! ## C8 -/

/-- C8 (counterexample): `store_file` with a non-UUID id and a source path
that is not a regular file fails with the source-not-found
`BackendError` — not with the assertion, because the `os.path.isfile`
check runs before `_get_base_name` is ever reached. -/
theorem c8_counterexample_missing_source_not_assertion :
    (FSBackend.store_file witBackend [] "42" .notUuid "missing.txt" none
        false .ok).1 = .error (.backendError .sourceNotFound) ∧
    (FSBackend.store_file witBackend [] "42" .notUuid "missing.txt" none
        false .ok).1 ≠ .error .assertionError := by
  refine ⟨rfl, ?_⟩
  intro h
  rw [show (FSBackend.store_file witBackend [] "42" .notUuid "missing.txt"
    none false .ok).1 = .error (.backendError .sourceNotFound) from rfl] at h
  simp at h

/-- C8 (amended): every operation rejects a non-UUID id before any
filesystem modification, and which error is raised follows the source
order of the checks: the pure path derivations (`get_file_path`,
`get_file_pub_url`) fail with the `AssertionError` from
`_get_base_name`; `store_file` fails with that assertion whenever its
earlier `os.path.isfile` validation passes (including a symlink source
resolving to a regular file) and with the source-not-found
`BackendError` when it does not; `store_http_file` fails with the
assertion for a `File` argument and with the unsupported-source
`BackendError` otherwise; in every case the filesystem is returned
unchanged, and for every UUID id the assertion passes
(`_get_base_name` returns a path). -/
theorem c8_non_uuid_id_rejected_before_fs_change :
    (∀ (be : FSBackend) (bucketId fn : String),
      FSBackend.get_file_path be bucketId .notUuid fn
        = .error .assertionError) ∧
    (∀ (be : FSBackend) (bucketId fn : String),
      FSBackend.get_file_pub_url be bucketId .notUuid fn
        = .error .assertionError) ∧
    (∀ (be : FSBackend) (fs : FS) (bucketId src : String)
        (name : Option String) (arw : Bool) (linkRes : LinkResult),
      FS.isfile fs src = true →
      FSBackend.store_file be fs bucketId .notUuid src name arw linkRes
        = (.error .assertionError, fs, false)) ∧
    (∀ (be : FSBackend) (fs : FS) (bucketId src : String)
        (name : Option String) (arw : Bool) (linkRes : LinkResult),
      FS.isfile fs src = false →
      FSBackend.store_file be fs bucketId .notUuid src name arw linkRes
        = (.error (.backendError .sourceNotFound), fs, false)) ∧
    (∀ (be : FSBackend) (fs : FS) (bucketId fn : String)
        (content : List Nat) (saveErr : Option Nat) (arw : Bool),
      FSBackend.store_http_file be fs bucketId .notUuid
          (.file fn content saveErr) arw
        = (.error .assertionError, fs)) ∧
    (∀ (be : FSBackend) (fs : FS) (bucketId : String) (arw : Bool),
      FSBackend.store_http_file be fs bucketId .notUuid .notFile arw
        = (.error (.backendError .unsupportedSource), fs)) ∧
    (∀ (bucketId fn : String) (bytes : List Nat),
      ∃ base, get_base_name bucketId (.uuid bytes) fn = .ok base) := by
  refine ⟨fun be bucketId fn => rfl, fun be bucketId fn => rfl, ?_, ?_,
    fun be fs bucketId fn content saveErr arw => rfl,
    fun be fs bucketId arw => rfl,
    fun bucketId fn bytes => ⟨base_name_uuid bucketId bytes fn, rfl⟩⟩
  · intro be fs bucketId src name arw linkRes hsf
    rcases hst : FS.stat fs src with - | entry
    · simp [FS.isfile, hst] at hsf
    · cases entry with
      | file c m =>
        simp [FSBackend.store_file, hst, FSBackend.get_path, get_base_name]
      | symlink t m => simp [FS.isfile, hst] at hsf
      | dir m => simp [FS.isfile, hst] at hsf
  · intro be fs bucketId src name arw linkRes hsf
    rcases hst : FS.stat fs src with - | entry
    · simp [FSBackend.store_file, hst]
    · cases entry with
      | file c m => simp [FS.isfile, hst] at hsf
      | symlink t m => simp [FSBackend.store_file, hst]
      | dir m => simp [FSBackend.store_file, hst]

/-- C8 witness: the dichotomy at concrete inputs — a symlink source that
resolves to a regular file triggers the assertion; a missing source, the
source-not-found error. -/
theorem c8_non_uuid_id_rejected_before_fs_change_witness :
    FSBackend.store_file witBackend witFS3 "42" .notUuid "link.pdf" none
        false .ok = (.error .assertionError, witFS3, false) ∧
    FSBackend.store_file witBackend witFS3 "42" .notUuid "missing.txt" none
        false .ok = (.error (.backendError .sourceNotFound), witFS3, false) :=
  ⟨c8_non_uuid_id_rejected_before_fs_change.2.2.1 witBackend witFS3 "42"
      "link.pdf" none false .ok (by decide),
   c8_non_uuid_id_rejected_before_fs_change.2.2.2.1 witBackend witFS3 "42"
      "missing.txt" none false .ok (by decide)⟩

end Edgedb